import Mathlib

/-!
Shallow embedding of the persistence layer of the campusbuddy app
(`src/utils/storage.js`).  The persisted state is a JSON document: an
insertion-ordered string-keyed object mapping semester names to semester
records, each semester record mapping subject names to subject records
`{ tasks, colorTag }`.  JavaScript objects are modelled as association
lists in insertion order; a field that may be absent in the stored JSON
(`tasks`, `colorTag`) is an `Option`.  A statement `x.f.g` where `x.f`
is `undefined` throws a `TypeError` at run time; operations that can hit
such a statement, or that `throw new Error(...)`, return an
`Option JsError` alongside the state that is actually persisted when the
function finishes or throws (every `throw` in the source happens before
any save, so on an error the persisted state is the original one).
-/

namespace CampusBuddy

/-- A task object as created by the screens: `{ title, dueDate, completed }`. -/
structure Task where
  title : String
  dueDate : String
  completed : Bool
deriving DecidableEq, Repr

/-- A stored subject record.  Either field can be absent in the persisted
JSON (`updateSubject` can fabricate a record holding only `colorTag`),
hence both are `Option`s. -/
structure SubjectRec where
  tasks : Option (List Task)
  colorTag : Option String
deriving DecidableEq, Repr

/-- A semester record: a JS object from subject names to subject records. -/
abbrev SemData := List (String × SubjectRec)

/-- The root document: a JS object from semester names to semester records. -/
abbrev RootDoc := List (String × SemData)

/-- Errors observable from a storage call: an explicitly thrown
`Error(msg)`, or a runtime `TypeError` from accessing a property of
`undefined`. -/
inductive JsError where
  | thrown (msg : String)
  | typeError
deriving DecidableEq, Repr

/-- JS object property read `d[k]`: the value, or `undefined` (`none`). -/
def jsGet {α : Type} (d : List (String × α)) (k : String) : Option α :=
  match d with
  | [] => none
  | (k1, v) :: rest => if k1 = k then some v else jsGet rest k

/-- JS object property write `d[k] = v`: overwrite in place when the key
exists, otherwise append the key at the end (insertion order). -/
def jsSet {α : Type} (d : List (String × α)) (k : String) (v : α) :
    List (String × α) :=
  match d with
  | [] => [(k, v)]
  | (k1, v1) :: rest =>
      if k1 = k then (k1, v) :: rest else (k1, v1) :: jsSet rest k v

/-- JS `delete d[k]`: remove the key, preserving the order of the rest. -/
def jsDel {α : Type} (d : List (String × α)) (k : String) :
    List (String × α) :=
  match d with
  | [] => []
  | (k1, v1) :: rest => if k1 = k then rest else (k1, v1) :: jsDel rest k

/-- JS array read `ts[i]` with an arbitrary (possibly negative) integer
index: the element when `0 ≤ i < length`, `undefined` otherwise (a
negative index is an ordinary absent property on a JS array). -/
def jsIndex (ts : List Task) (i : Int) : Option Task :=
  if 0 ≤ i then ts[i.toNat]? else none

/-- The start position chosen by `Array.prototype.splice(i, 1)`:
`max(len + i, 0)` for negative `i`, `min(i, len)` otherwise. -/
def spliceStart (len : Nat) (i : Int) : Nat :=
  if i < 0 then ((len : Int) + i).toNat else min i.toNat len

/-- `ts.splice(i, 1)` as a pure function: remove the single element at
`spliceStart` (removing nothing when the start position is `len`). -/
def spliceRemoveOne (ts : List Task) (i : Int) : List Task :=
  let s := spliceStart ts.length i
  ts.take s ++ ts.drop (s + 1)

/-- The default subject colour of the storage module. -/
def defaultColor : String := "#6C63FF"

/-- A sample task for concrete evaluations. -/
def taskA : Task := { title := "a", dueDate := "d1", completed := false }

/-- A second sample task for concrete evaluations. -/
def taskB : Task := { title := "b", dueDate := "d2", completed := true }

/-- A sample subject record holding `taskA` then `taskB`. -/
def recAB : SubjectRec := { tasks := some [taskA, taskB], colorTag := some "#717171" }

/-- The two persisted AsyncStorage values: the semester-name index
(`@semesters_list`) and the root document (`@semester_task_manager`). -/
structure SemStore where
  semesters : List String
  data : RootDoc
deriving DecidableEq, Repr

/-- `addSemester(semesterName)`: push the name onto the semester-name
index iff it is not already included. -/
def addSemester (semesterName : String) (semesters : List String) :
    List String :=
  if semesterName ∈ semesters then semesters else semesters ++ [semesterName]

/-- `updateSemester(oldName, newName)`: early return on a rename to self;
throw a duplicate-name `Error` when `newName` is already in the index
(before any save); otherwise rewrite the index entry and, when the root
document holds data under `oldName`, move it to `newName`. -/
def updateSemester (oldName newName : String) (st : SemStore) :
    Option JsError × SemStore :=
  if oldName = newName then (none, st)
  else if newName ∈ st.semesters then
    (some (JsError.thrown "A semester with this name already exists"), st)
  else
    let semesters1 := st.semesters.map fun s => if s = oldName then newName else s
    let st1 : SemStore := { st with semesters := semesters1 }
    match jsGet st1.data oldName with
    | some sub =>
        (none, { st1 with data := jsDel (jsSet st1.data newName sub) oldName })
    | none => (none, st1)

/-- `addSubject(semester, subjectName, colorTag)` acting on the semester
record: insert `{ tasks: [], colorTag }` and save iff the subject is
absent (the `Bool` records whether `saveSemesterData` was called). -/
def addSubject (subjectName colorTag : String) (sd : SemData) :
    SemData × Bool :=
  match jsGet sd subjectName with
  | none => (jsSet sd subjectName { tasks := some [], colorTag := some colorTag }, true)
  | some _ => (sd, false)

/-- The record stored under the new name by `updateSubject`:
`{ ...semesterData[old], colorTag }`.  Spreading `undefined` contributes
no fields, so an absent source yields a record with no `tasks` field. -/
def spreadWithColor (src : Option SubjectRec) (colorTag : String) :
    SubjectRec :=
  match src with
  | none => { tasks := none, colorTag := some colorTag }
  | some r => { r with colorTag := some colorTag }

/-- `updateSubject(semester, oldSubjectName, newSubjectName, colorTag)`
acting on the semester record.  On a real rename it throws a
duplicate-name `Error` when the new name is taken, else writes
`{ ...semesterData[old], colorTag }` under the new name and deletes the
old key.  On a rename to self it executes
`semesterData[old].colorTag = colorTag`, which is a `TypeError` when the
subject is absent. -/
def updateSubject (oldSubjectName newSubjectName colorTag : String)
    (sd : SemData) : Option JsError × SemData :=
  if oldSubjectName ≠ newSubjectName then
    match jsGet sd newSubjectName with
    | some _ => (some (JsError.thrown "A subject with this name already exists"), sd)
    | none =>
        let sd1 := jsSet sd newSubjectName
          (spreadWithColor (jsGet sd oldSubjectName) colorTag)
        (none, jsDel sd1 oldSubjectName)
  else
    match jsGet sd oldSubjectName with
    | none => (some JsError.typeError, sd)
    | some r => (none, jsSet sd oldSubjectName { r with colorTag := some colorTag })

/-- `addTask(semester, subject, task)` acting on the semester record:
when the subject is absent a fresh `{ tasks: [], colorTag: default }`
record is installed, then `semesterData[subject].tasks.push(task)` runs
— a `TypeError` when the (pre-existing) record has no `tasks` field —
and the record is saved. -/
def addTask (subject : String) (task : Task) (sd : SemData) :
    Option JsError × SemData :=
  let r : SubjectRec :=
    match jsGet sd subject with
    | none => { tasks := some [], colorTag := some defaultColor }
    | some r0 => r0
  match r.tasks with
  | none => (some JsError.typeError, sd)
  | some ts => (none, jsSet sd subject { r with tasks := some (ts ++ [task]) })

/-- `updateTask(semester, subject, taskIndex, updatedTask)` acting on the
semester record.  The guard `semesterData[subject] &&
semesterData[subject].tasks[taskIndex]` short-circuits on an absent
subject; on a present subject it indexes `tasks`, a `TypeError` when the
`tasks` field is absent, and otherwise tests the element's truthiness —
tasks are objects, hence truthy, so the test is an in-bounds test.  Only
when the guard passes is the element replaced and the record saved. -/
def updateTask (subject : String) (taskIndex : Int) (updatedTask : Task)
    (sd : SemData) : Option JsError × SemData × Bool :=
  match jsGet sd subject with
  | none => (none, sd, false)
  | some r =>
      match r.tasks with
      | none => (some JsError.typeError, sd, false)
      | some ts =>
          match jsIndex ts taskIndex with
          | none => (none, sd, false)
          | some _ =>
              (none,
               jsSet sd subject { r with tasks := some (ts.set taskIndex.toNat updatedTask) },
               true)

/-- `deleteTask(semester, subject, taskIndex)` acting on the semester
record: a silent no-op on an absent subject; otherwise
`semesterData[subject].tasks.splice(taskIndex, 1)` runs — a `TypeError`
when the `tasks` field is absent — and the record is saved whether or
not `splice` removed anything. -/
def deleteTask (subject : String) (taskIndex : Int) (sd : SemData) :
    Option JsError × SemData × Bool :=
  match jsGet sd subject with
  | none => (none, sd, false)
  | some r =>
      match r.tasks with
      | none => (some JsError.typeError, sd, false)
      | some ts =>
          (none, jsSet sd subject { r with tasks := some (spliceRemoveOne ts taskIndex) }, true)

/-! ### Basic lemmas about the JS object model -/

theorem jsGet_jsSet_self {α : Type} (d : List (String × α)) (k : String) (v : α) :
    jsGet (jsSet d k v) k = some v := by
  induction d with
  | nil => simp [jsGet, jsSet]
  | cons hd tl ih =>
      obtain ⟨k1, v1⟩ := hd
      by_cases hk : k1 = k
      · simp [jsGet, jsSet, hk]
      · simp [jsGet, jsSet, hk, ih]

theorem jsGet_jsSet_ne {α : Type} (d : List (String × α)) (k k2 : String)
    (v : α) (h : k2 ≠ k) : jsGet (jsSet d k v) k2 = jsGet d k2 := by
  induction d with
  | nil => simp [jsGet, jsSet, Ne.symm h]
  | cons hd tl ih =>
      obtain ⟨k1, v1⟩ := hd
      by_cases hk : k1 = k
      · subst hk
        simp [jsGet, jsSet, Ne.symm h]
      · simp only [jsSet, if_neg hk]
        by_cases hk2 : k1 = k2
        · simp [jsGet, hk2]
        · simp [jsGet, hk2, ih]

theorem jsSet_of_get_eq {α : Type} (d : List (String × α)) (k : String)
    (v : α) (h : jsGet d k = some v) : jsSet d k v = d := by
  induction d with
  | nil => simp [jsGet] at h
  | cons hd tl ih =>
      obtain ⟨k1, v1⟩ := hd
      by_cases hk : k1 = k
      · simp only [jsGet, if_pos hk, Option.some.injEq] at h
        simp [jsSet, hk, h]
      · simp only [jsGet, if_neg hk] at h
        simp [jsSet, hk, ih h]

theorem jsDel_of_get_none {α : Type} (d : List (String × α)) (k : String)
    (h : jsGet d k = none) : jsDel d k = d := by
  induction d with
  | nil => simp [jsDel]
  | cons hd tl ih =>
      obtain ⟨k1, v1⟩ := hd
      by_cases hk : k1 = k
      · simp [jsGet, hk] at h
      · simp only [jsGet, if_neg hk] at h
        simp [jsDel, hk, ih h]

theorem take_append_drop_succ_sublist {α : Type} (l : List α) (p : Nat) :
    (l.take p ++ l.drop (p + 1)).Sublist l := by
  have h1 : l.drop (p + 1) = (l.drop p).tail := by
    rw [← List.drop_drop, List.drop_one]
  have h2 : (l.take p ++ l.drop (p + 1)).Sublist (l.take p ++ l.drop p) := by
    rw [h1]
    exact List.Sublist.append (List.Sublist.refl _) (List.tail_sublist _)
  simpa [List.take_append_drop] using h2

/-! ### The claims -/

/-- Claim C1: when `b` is already present in the semester-name index and
`b ≠ a`, `updateSemester a b` throws the duplicate-name error and leaves
the whole persisted state — the index and, in particular, the subtrees
stored under `a` and `b` in the root document — unchanged. -/
theorem updateSemester_duplicate_rejected (a b : String) (st : SemStore)
    (hb : b ∈ st.semesters) (hne : b ≠ a) :
    updateSemester a b st =
      (some (JsError.thrown "A semester with this name already exists"), st) := by
  simp [updateSemester, Ne.symm hne, hb]

/-- Witness for C1 at a concrete store. -/
theorem updateSemester_duplicate_rejected_witness :
    updateSemester "Semester 1" "Semester 2"
        { semesters := ["Semester 1", "Semester 2"], data := [] } =
      (some (JsError.thrown "A semester with this name already exists"),
       { semesters := ["Semester 1", "Semester 2"], data := [] }) :=
  updateSemester_duplicate_rejected "Semester 1" "Semester 2"
    { semesters := ["Semester 1", "Semester 2"], data := [] }
    (by decide) (by decide)

/-- Claim C2: renaming a subject to a name `n ≠ o` that already exists in
the semester throws the duplicate-name error and leaves the semester
record — both subjects and all their tasks — unchanged. -/
theorem updateSubject_duplicate_rejected (o n c : String) (sd : SemData)
    (hne : n ≠ o) (hn : (jsGet sd n).isSome) :
    updateSubject o n c sd =
      (some (JsError.thrown "A subject with this name already exists"), sd) := by
  obtain ⟨r, hr⟩ := Option.isSome_iff_exists.mp hn
  simp [updateSubject, Ne.symm hne, hr]

/-- Witness for C2 at a concrete semester record. -/
theorem updateSubject_duplicate_rejected_witness :
    updateSubject "Math" "Physics" "#101010"
        [("Math", { tasks := some [], colorTag := some "#202020" }),
         ("Physics", { tasks := some [], colorTag := some "#303030" })] =
      (some (JsError.thrown "A subject with this name already exists"),
       [("Math", { tasks := some [], colorTag := some "#202020" }),
        ("Physics", { tasks := some [], colorTag := some "#303030" })]) :=
  updateSubject_duplicate_rejected "Math" "Physics" "#101010" _
    (by decide) (by decide)

/-- Claim C6: `addSemester x` appends `x` at the end of the index when `x`
is absent, leaves the index unchanged when `x` is present, and adding
twice starting from an index without `x` leaves exactly one occurrence
of `x`. -/
theorem addSemester_append_iff_absent (x : String) (sems : List String) :
    (x ∉ sems → addSemester x sems = sems ++ [x]) ∧
    (x ∈ sems → addSemester x sems = sems) ∧
    (x ∉ sems → (addSemester x (addSemester x sems)).count x = 1) := by
  refine ⟨fun h => by simp [addSemester, h], fun h => by simp [addSemester, h],
    fun h => ?_⟩
  have h1 : addSemester x sems = sems ++ [x] := by simp [addSemester, h]
  have h2 : x ∈ sems ++ [x] := by simp
  rw [h1]
  simp [addSemester, h2, List.count_append, List.count_eq_zero.mpr h]

/-- Witness for C6 at a concrete index. -/
theorem addSemester_append_iff_absent_witness :
    addSemester "Semester 3" ["Semester 1", "Semester 2"] =
      ["Semester 1", "Semester 2", "Semester 3"] ∧
    (addSemester "Semester 3"
        (addSemester "Semester 3" ["Semester 1", "Semester 2"])).count "Semester 3" = 1 := by
  have h := addSemester_append_iff_absent "Semester 3" ["Semester 1", "Semester 2"]
  exact ⟨h.1 (by decide), h.2.2 (by decide)⟩

/-- Claim C7: renaming a subject to its own current name succeeds and
updates only that subject's `colorTag`: the task sequence is preserved
and every other subject of the semester is untouched. -/
theorem updateSubject_rename_to_self (n c : String) (sd : SemData)
    (r : SubjectRec) (h : jsGet sd n = some r) :
    (updateSubject n n c sd).1 = none ∧
    jsGet (updateSubject n n c sd).2 n =
      some { tasks := r.tasks, colorTag := some c } ∧
    ∀ k, k ≠ n → jsGet (updateSubject n n c sd).2 k = jsGet sd k := by
  have hdef : updateSubject n n c sd =
      (none, jsSet sd n { r with colorTag := some c }) := by
    simp [updateSubject, h]
  rw [hdef]
  exact ⟨rfl, jsGet_jsSet_self sd n _, fun k hk => jsGet_jsSet_ne sd n k _ hk⟩

/-- Witness for C7 at a concrete semester record. -/
theorem updateSubject_rename_to_self_witness :
    (updateSubject "Math" "Math" "#222222"
        [("Math", { tasks := some [{ title := "hw", dueDate := "2025-05-05", completed := false }],
                    colorTag := some "#111111" }),
         ("Art", { tasks := some [], colorTag := some "#444444" })]).1 = none ∧
    jsGet (updateSubject "Math" "Math" "#222222"
        [("Math", { tasks := some [{ title := "hw", dueDate := "2025-05-05", completed := false }],
                    colorTag := some "#111111" }),
         ("Art", { tasks := some [], colorTag := some "#444444" })]).2 "Math" =
      some { tasks := some [{ title := "hw", dueDate := "2025-05-05", completed := false }],
             colorTag := some "#222222" } ∧
    jsGet (updateSubject "Math" "Math" "#222222"
        [("Math", { tasks := some [{ title := "hw", dueDate := "2025-05-05", completed := false }],
                    colorTag := some "#111111" }),
         ("Art", { tasks := some [], colorTag := some "#444444" })]).2 "Art" =
      jsGet [("Math", { tasks := some [{ title := "hw", dueDate := "2025-05-05", completed := false }],
                        colorTag := some "#111111" }),
             ("Art", { tasks := some [], colorTag := some "#444444" })] "Art" := by
  have h := updateSubject_rename_to_self "Math" "#222222"
    [("Math", { tasks := some [{ title := "hw", dueDate := "2025-05-05", completed := false }],
                colorTag := some "#111111" }),
     ("Art", { tasks := some [], colorTag := some "#444444" })]
    { tasks := some [{ title := "hw", dueDate := "2025-05-05", completed := false }],
      colorTag := some "#111111" } (by decide)
  exact ⟨h.1, h.2.1, h.2.2 "Art" (by decide)⟩

/-- Claim C8: `addSubject` inserts a fresh record with an empty task
sequence and the given `colorTag` iff the name is not already a subject
of the semester; when the subject exists the call is a no-op that does
not save and in particular does not update the existing colour. -/
theorem addSubject_insert_iff_absent (n c : String) (sd : SemData) :
    (jsGet sd n = none →
       addSubject n c sd =
         (jsSet sd n { tasks := some [], colorTag := some c }, true)) ∧
    ((jsGet sd n).isSome → addSubject n c sd = (sd, false)) := by
  constructor
  · intro h; simp [addSubject, h]
  · intro h
    obtain ⟨r, hr⟩ := Option.isSome_iff_exists.mp h
    simp [addSubject, hr]

/-- Witness for C8 at a concrete semester record. -/
theorem addSubject_insert_iff_absent_witness :
    addSubject "Bio" "#515151"
        [("Math", { tasks := some [], colorTag := some "#626262" })] =
      ([("Math", { tasks := some [], colorTag := some "#626262" }),
        ("Bio", { tasks := some [], colorTag := some "#515151" })], true) ∧
    addSubject "Math" "#515151"
        [("Math", { tasks := some [], colorTag := some "#626262" })] =
      ([("Math", { tasks := some [], colorTag := some "#626262" })], false) := by
  have h1 := addSubject_insert_iff_absent "Bio" "#515151"
    [("Math", { tasks := some [], colorTag := some "#626262" })]
  have h2 := addSubject_insert_iff_absent "Math" "#515151"
    [("Math", { tasks := some [], colorTag := some "#626262" })]
  exact ⟨by rw [h1.1 (by decide)]; rfl, h2.2 (by decide)⟩

/-- Claim C10: on a subject whose task list is present with length
`n ≥ 1`, `deleteTask` with `-n ≤ i ≤ -1` is not a no-op: it removes
exactly the task at position `n + i` and saves; with `i ≥ n` the task
list is saved back unchanged; and the surviving tasks always keep their
relative order (the spliced list is a sublist of the original). -/
theorem deleteTask_negative_index (s : String) (i : Int) (sd : SemData)
    (r : SubjectRec) (ts : List Task)
    (h : jsGet sd s = some r) (ht : r.tasks = some ts) (hn : 1 ≤ ts.length) :
    ((-(ts.length : Int) ≤ i ∧ i ≤ -1) →
       deleteTask s i sd =
         (none,
          jsSet sd s { r with
            tasks := some (ts.take ((ts.length : Int) + i).toNat ++
                           ts.drop (((ts.length : Int) + i).toNat + 1)) },
          true)) ∧
    ((ts.length : Int) ≤ i → deleteTask s i sd = (none, sd, true)) ∧
    (spliceRemoveOne ts i).Sublist ts := by
  have hdef : deleteTask s i sd =
      (none, jsSet sd s { r with tasks := some (spliceRemoveOne ts i) }, true) := by
    simp [deleteTask, h, ht]
  refine ⟨fun hrange => ?_, fun hoob => ?_, take_append_drop_succ_sublist ts _⟩
  · have hstart : spliceStart ts.length i = ((ts.length : Int) + i).toNat := by
      have : i < 0 := by omega
      simp [spliceStart, this]
    rw [hdef]
    simp only [spliceRemoveOne, hstart]
  · have hstart : spliceStart ts.length i = ts.length := by
      have h0 : ¬ i < 0 := by omega
      have h1 : ts.length ≤ i.toNat := by omega
      simp [spliceStart, h0, Nat.min_eq_right h1]
    have hsplice : spliceRemoveOne ts i = ts := by
      simp [spliceRemoveOne, hstart, List.drop_eq_nil_of_le (by omega : ts.length ≤ ts.length + 1)]
    have hrec : { r with tasks := some ts } = r := by
      cases r with
      | mk tasks0 color0 => simp at ht; simp [ht]
    rw [hdef, hsplice, hrec, jsSet_of_get_eq sd s r h]

/-- Witness for C10: deleting at index `-1` removes the last of two
tasks, and deleting at index `5` re-saves the record unchanged. -/
theorem deleteTask_negative_index_witness :
    deleteTask "Math" (-1) [("Math", recAB)] =
      (none, [("Math", { tasks := some [taskA], colorTag := some "#717171" })], true) ∧
    deleteTask "Math" 5 [("Math", recAB)] = (none, [("Math", recAB)], true) := by
  have h1 := deleteTask_negative_index "Math" (-1) [("Math", recAB)]
    recAB [taskA, taskB] (by decide) (by decide) (by decide)
  have h2 := deleteTask_negative_index "Math" 5 [("Math", recAB)]
    recAB [taskA, taskB] (by decide) (by decide) (by decide)
  constructor
  · rw [h1.1 (by constructor <;> decide)]; rfl
  · exact h2.2.1 (by decide)

/-- Counterexample to claim C3: on a stored subject record that lacks its
`tasks` field (reachable: `updateSubject` fabricates such a record),
`addTask` raises a `TypeError` instead of treating the missing field as
an empty sequence. -/
theorem addTask_missing_tasks_counterexample :
    addTask "Math" taskA [("Math", { tasks := none, colorTag := some "#123456" })] =
      (some JsError.typeError,
       [("Math", { tasks := none, colorTag := some "#123456" })]) := by
  rfl

/-- Claim C3 (amended): a fully absent subject record is defaulted by the
task operations, but a present record lacking its `tasks` field is not
treated as holding an empty sequence — `addTask` and `deleteTask` on it
raise a `TypeError` and persist nothing. -/
theorem taskOps_missing_tasks_raise (s : String) (t : Task) (i : Int)
    (sd : SemData) (r : SubjectRec)
    (h : jsGet sd s = some r) (ht : r.tasks = none) :
    addTask s t sd = (some JsError.typeError, sd) ∧
    deleteTask s i sd = (some JsError.typeError, sd, false) := by
  constructor
  · simp [addTask, h, ht]
  · simp [deleteTask, h, ht]

/-- Witness for the amended C3 at a concrete record without `tasks`. -/
theorem taskOps_missing_tasks_raise_witness :
    addTask "Lit" taskB [("Lit", { tasks := none, colorTag := none })] =
      (some JsError.typeError, [("Lit", { tasks := none, colorTag := none })]) ∧
    deleteTask "Lit" 0 [("Lit", { tasks := none, colorTag := none })] =
      (some JsError.typeError, [("Lit", { tasks := none, colorTag := none })], false) :=
  taskOps_missing_tasks_raise "Lit" taskB 0
    [("Lit", { tasks := none, colorTag := none })]
    { tasks := none, colorTag := none } (by decide) (by decide)

/-- Counterexample to claim C4: `addTask` does not always succeed — on a
subject whose stored record has no `tasks` field it raises a `TypeError`
and appends nothing. -/
theorem addTask_not_total_counterexample :
    addTask "Chem" taskB [("Chem", { tasks := none, colorTag := some "#abcdef" })] =
      (some JsError.typeError,
       [("Chem", { tasks := none, colorTag := some "#abcdef" })]) := by
  rfl

/-- Claim C4 (amended): `addTask` succeeds when the subject is absent —
creating it with the default colour and the given task as its single
entry — and when the subject's record carries a `tasks` field, appending
the task at the end with all previous tasks kept in order; but it raises
a `TypeError` when the subject's record lacks its `tasks` field. -/
theorem addTask_appends (s : String) (t : Task) (sd : SemData) :
    (jsGet sd s = none →
       addTask s t sd =
         (none, jsSet sd s { tasks := some [t], colorTag := some defaultColor })) ∧
    (∀ r ts, jsGet sd s = some r → r.tasks = some ts →
       addTask s t sd = (none, jsSet sd s { r with tasks := some (ts ++ [t]) })) ∧
    (∀ r, jsGet sd s = some r → r.tasks = none →
       addTask s t sd = (some JsError.typeError, sd)) := by
  refine ⟨fun h => by simp [addTask, h],
    fun r ts h ht => by simp [addTask, h, ht],
    fun r h ht => by simp [addTask, h, ht]⟩

/-- Witness for the amended C4: appending to an absent subject and to a
subject with one existing task. -/
theorem addTask_appends_witness :
    addTask "New" taskA [] =
      (none, [("New", { tasks := some [taskA], colorTag := some defaultColor })]) ∧
    addTask "Math" taskB
        [("Math", { tasks := some [taskA], colorTag := some "#818181" })] =
      (none, [("Math", { tasks := some [taskA, taskB], colorTag := some "#818181" })]) := by
  have h1 := addTask_appends "New" taskA []
  have h2 := addTask_appends "Math" taskB
    [("Math", { tasks := some [taskA], colorTag := some "#818181" })]
  constructor
  · rw [h1.1 (by decide)]; rfl
  · rw [h2.2.1 { tasks := some [taskA], colorTag := some "#818181" } [taskA]
      (by decide) (by decide)]
    rfl

/-- Counterexample to claim C5: with the subject present but its `tasks`
field absent — so that every index, in particular `0`, is out of bounds
of its (effectively empty) task sequence — `updateTask` raises a
`TypeError` instead of being a silent no-op. -/
theorem updateTask_missing_tasks_counterexample :
    updateTask "Hist" 0 taskA [("Hist", { tasks := none, colorTag := some "#ffffff" })] =
      (some JsError.typeError,
       [("Hist", { tasks := none, colorTag := some "#ffffff" })], false) := by
  rfl

/-- Claim C5 (amended): when the subject is present with a `tasks` field
and `0 ≤ i < length`, `updateTask` replaces exactly the task at `i`
(leaving every other task and subject as `jsSet`/`List.set` leave them)
and saves; it is a silent error-free no-op when the subject is absent or
when the `tasks` field is present and the index is out of bounds; but
when the subject's record lacks its `tasks` field it raises a
`TypeError`. -/
theorem updateTask_replace_or_noop (s : String) (i : Int) (t : Task) (sd : SemData) :
    (jsGet sd s = none → updateTask s i t sd = (none, sd, false)) ∧
    (∀ r ts, jsGet sd s = some r → r.tasks = some ts →
       ((0 ≤ i ∧ i.toNat < ts.length) →
          updateTask s i t sd =
            (none, jsSet sd s { r with tasks := some (ts.set i.toNat t) }, true)) ∧
       (¬ (0 ≤ i ∧ i.toNat < ts.length) → updateTask s i t sd = (none, sd, false))) ∧
    (∀ r, jsGet sd s = some r → r.tasks = none →
       updateTask s i t sd = (some JsError.typeError, sd, false)) := by
  refine ⟨fun h => by simp [updateTask, h], fun r ts h ht => ⟨fun hin => ?_, fun hout => ?_⟩,
    fun r h ht => by simp [updateTask, h, ht]⟩
  · have hidx : jsIndex ts i = some (ts.get ⟨i.toNat, hin.2⟩) := by
      simp [jsIndex, hin.1, List.getElem?_eq_getElem hin.2]
    simp [updateTask, h, ht, hidx]
  · have hidx : jsIndex ts i = none := by
      by_cases h0 : 0 ≤ i
      · have hge : ts.length ≤ i.toNat := by omega
        simp [jsIndex, h0, List.getElem?_eq_none hge]
      · simp [jsIndex, h0]
    simp [updateTask, h, ht, hidx]

/-- Witness for the amended C5: an in-bounds replacement, an absent
subject, and an out-of-bounds index on a present task list. -/
theorem updateTask_replace_or_noop_witness :
    updateTask "Math" 1 taskA [("Math", recAB)] =
      (none, [("Math", { tasks := some [taskA, taskA], colorTag := some "#717171" })], true) ∧
    updateTask "None" 0 taskA [("Math", recAB)] = (none, [("Math", recAB)], false) ∧
    updateTask "Math" 2 taskA [("Math", recAB)] = (none, [("Math", recAB)], false) := by
  have h1 := updateTask_replace_or_noop "Math" 1 taskA [("Math", recAB)]
  have h2 := updateTask_replace_or_noop "None" 0 taskA [("Math", recAB)]
  have h3 := updateTask_replace_or_noop "Math" 2 taskA [("Math", recAB)]
  refine ⟨?_, h2.1 (by decide), ?_⟩
  · rw [(h1.2.1 recAB [taskA, taskB] (by decide) (by decide)).1 (by constructor <;> decide)]
    rfl
  · exact (h3.2.1 recAB [taskA, taskB] (by decide) (by decide)).2 (by decide)

/-- Counterexample to claim C9: with `old` absent and `new ≠ old`,
`renameSubject` can still fail — when `new` names an existing subject it
throws the duplicate-name error instead of fabricating a record. -/
theorem updateSubject_absent_old_counterexample :
    updateSubject "Ghost" "Bio" "#00ff00"
        [("Bio", { tasks := some [], colorTag := some "#112233" })] =
      (some (JsError.thrown "A subject with this name already exists"),
       [("Bio", { tasks := some [], colorTag := some "#112233" })]) := by
  rfl

/-- Claim C9 (amended): when `old` is absent, `new` is also absent, and
`new ≠ old`, `renameSubject` neither fails nor no-ops: it appends under
`new` a record holding only the `colorTag` field (its `tasks` field is
absent), deletes nothing, and saves. -/
theorem updateSubject_fabricates_record (o n c : String) (sd : SemData)
    (ho : jsGet sd o = none) (hn : jsGet sd n = none) (hne : n ≠ o) :
    updateSubject o n c sd =
      (none, jsSet sd n { tasks := none, colorTag := some c }) := by
  have h1 : updateSubject o n c sd =
      (none, jsDel (jsSet sd n { tasks := none, colorTag := some c }) o) := by
    simp [updateSubject, Ne.symm hne, hn, ho, spreadWithColor]
  have h2 : jsGet (jsSet sd n { tasks := none, colorTag := some c }) o = none := by
    rw [jsGet_jsSet_ne sd n o _ (Ne.symm hne), ho]
  rw [h1, jsDel_of_get_none _ _ h2]

/-- Witness for the amended C9 at a concrete semester record. -/
theorem updateSubject_fabricates_record_witness :
    updateSubject "Ghost" "Geo" "#00ff00"
        [("Math", { tasks := some [], colorTag := some "#445566" })] =
      (none,
       [("Math", { tasks := some [], colorTag := some "#445566" }),
        ("Geo", { tasks := none, colorTag := some "#00ff00" })]) := by
  have h := updateSubject_fabricates_record "Ghost" "Geo" "#00ff00"
    [("Math", { tasks := some [], colorTag := some "#445566" })]
    (by decide) (by decide) (by decide)
  rw [h]; rfl

end CampusBuddy
